import Mathlib

/-!
# Verification of the traffic-simulation engine

Shallow embedding of the city-traffic simulation
(`trafficBase/agent.py`, `trafficBase/model.py`, `server_traffic.py`).

Positions are integer pairs; grids are bounded and non-toroidal.  The
static map entities (roads, obstacles, destinations) live in the grid's
cell function; traffic lights carry mutable phase state and are kept in
the model state, looked up by position (the Python code scans the cell
contents of a `MultiGrid`; each cell holds at most one light, so a
position-keyed lookup is equivalent).  Randomness (`random.choice`,
`random.shuffle`) is made explicit through an oracle of functions keyed
by the calling car's id and the current tick, so every realisable draw
sequence corresponds to some oracle.
-/

namespace Traffic

/-- Road direction, one of the four compass directions (`agent.py`, `Road.direction`). -/
inductive Direction
  | Up
  | Down
  | Left
  | Right
deriving DecidableEq, Repr

/-- A grid coordinate.  Python tuples may hold negative values during
neighbour arithmetic, so coordinates are integers and bounds are checked
explicitly. -/
abbrev Pos := Int × Int

/-- Static occupants of a grid cell: `Road`, `Obstacle`, `Destination`
agents from `agent.py`.  Traffic lights are modelled separately because
their phase is mutable. -/
inductive StaticEntity
  | road (dir : Direction)
  | obstacle
  | destination
deriving DecidableEq, Repr

/-- The static part of the city: dimensions plus the per-cell contents,
in insertion order (as `mesa.MultiGrid` keeps them).  Built once by
`CityModel.__init__` from the parsed map file. -/
structure CityGrid where
  width : Int
  height : Int
  cells : Pos → List StaticEntity

/-- A `Traffic_Light` agent (`agent.py`): position, boolean phase
(`state`, true = green) and period (`timeToChange`). -/
structure Traffic_Light where
  pos : Pos
  state : Bool
  timeToChange : Nat
deriving DecidableEq, Repr

/-- A `Car` agent (`agent.py`, `Car.__init__` plus the `to_be_removed`
flag set dynamically).  `pos` is the grid position (the Python object
gets it from the grid placement). -/
structure Car where
  unique_id : Nat
  pos : Pos
  destination : Option Pos
  facing_direction : Option Direction
  path_to_destination : Option (List Pos)
  path_calculation_failures : Nat
  wait_time : Nat
  last_position : Option Pos
  to_be_removed : Bool
deriving DecidableEq, Repr

/-- Bounds check `0 <= x < width and 0 <= y < height` used throughout
`agent.py`. -/
def inBounds (g : CityGrid) (p : Pos) : Bool :=
  0 ≤ p.1 && p.1 < g.width && 0 ≤ p.2 && p.2 < g.height

/-- `Car.get_road_direction`: direction of the first `Road` agent at a
position, if any. -/
def get_road_direction (g : CityGrid) (p : Pos) : Option Direction :=
  (g.cells p).findSome? fun e =>
    match e with
    | .road d => some d
    | _ => none

/-- `Car.get_traffic_light_state`: phase of the traffic light at a
position, if any. -/
def get_traffic_light_state (lights : List Traffic_Light) (p : Pos) : Option Bool :=
  (lights.find? fun l => l.pos = p).map (·.state)

/-- Whether the cell itself holds an `Obstacle` agent. -/
def obstacleAt (g : CityGrid) (p : Pos) : Bool :=
  (g.cells p).any fun e => e = .obstacle

/-- Whether the cell holds a `Destination` agent. -/
def isDestinationCell (g : CityGrid) (p : Pos) : Bool :=
  (g.cells p).any fun e => e = .destination

/-- `Car.has_obstacle`: out-of-bounds positions count as obstacles. -/
def has_obstacle (g : CityGrid) (p : Pos) : Bool :=
  if !(inBounds g p) then true
  else obstacleAt g p

/-- `Car.has_car`: whether another car (different id) stands at `p`;
false out of bounds. -/
def has_car (g : CityGrid) (cars : List Car) (selfId : Nat) (p : Pos) : Bool :=
  if !(inBounds g p) then false
  else cars.any fun c => c.unique_id ≠ selfId && c.pos = p

/-- Movement direction computed from the coordinate delta, following the
exact `if/elif` chain of `Car.is_valid_move`: `dx == 1` is classified as
`Right` even when `dy ≠ 0`, so unit diagonal steps are classified by
their x-component and the `Diagonal` case only arises for larger
deltas. -/
inductive MoveDir
  | straightTo (d : Direction)
  | diagonalMove
deriving DecidableEq, Repr

/-- The `move_dir` computation of `Car.is_valid_move` (lines 95–110). -/
def computeMoveDir (dx dy : Int) : Option MoveDir :=
  if dx = 1 then some (.straightTo .Right)
  else if dx = -1 then some (.straightTo .Left)
  else if dy = 1 then some (.straightTo .Up)
  else if dy = -1 then some (.straightTo .Down)
  else if dx ≠ 0 && dy ≠ 0 then some .diagonalMove
  else none

/-- The `opposites` dictionary of `Car.is_valid_move`. -/
def opposite : Direction → Direction
  | .Up => .Down
  | .Down => .Up
  | .Left => .Right
  | .Right => .Left

/-- The `turn_lane_checks` dictionary of
`Car._is_in_correct_lane_for_turn`: offset of the parallel-lane cell to
inspect for each recognised (from, to) turn, `none` for unrecognised
patterns (which the Python code allows). -/
def turn_lane_checks : Direction → Direction → Option (Int × Int)
  | .Right, .Up => some (0, -1)
  | .Right, .Down => some (0, 1)
  | .Left, .Up => some (0, -1)
  | .Left, .Down => some (0, 1)
  | .Up, .Right => some (-1, 0)
  | .Up, .Left => some (1, 0)
  | .Down, .Right => some (-1, 0)
  | .Down, .Left => some (1, 0)
  | _, _ => none

/-- `Car._is_in_correct_lane_for_turn`. -/
def is_in_correct_lane_for_turn (g : CityGrid) (from_pos : Pos)
    (from_dir to_dir : Direction) : Bool :=
  match turn_lane_checks from_dir to_dir with
  | none => true
  | some off =>
    let parallel_pos : Pos := (from_pos.1 + off.1, from_pos.2 + off.2)
    if !(inBounds g parallel_pos) then true
    else decide (get_road_direction g parallel_pos = some from_dir)

/-- `Car.is_valid_move`, checks in source order: bounds, obstacle,
foreign destination, (optionally) other cars, road present, movement
direction, against-traffic, lane-correct turn. -/
def is_valid_move (g : CityGrid) (cars : List Car) (selfDest : Option Pos)
    (selfId : Nat) (from_pos to_pos : Pos) (avoid_cars : Bool) : Bool :=
  if !(inBounds g to_pos) then false
  else if has_obstacle g to_pos then false
  else if isDestinationCell g to_pos && selfDest ≠ some to_pos then false
  else if avoid_cars && has_car g cars selfId to_pos then false
  else
    match get_road_direction g to_pos with
    | none => false
    | some to_road_dir =>
      match computeMoveDir (to_pos.1 - from_pos.1) (to_pos.2 - from_pos.2) with
      | none => false
      | some md =>
        let againstTraffic : Bool :=
          match md with
          | .straightTo d => opposite d = to_road_dir
          | .diagonalMove => false
        if againstTraffic then false
        else
          match get_road_direction g from_pos, md with
          | some from_road_dir, .straightTo _ =>
            if from_road_dir ≠ to_road_dir then
              is_in_correct_lane_for_turn g from_pos from_road_dir to_road_dir
            else true
          | _, _ => true

/-- The `straight_directions` list of `Car.get_neighbors`:
`[(0,1),(0,-1),(1,0),(-1,0)]`, i.e. Up, Down, Right, Left. -/
def straight_directions : List (Int × Int) := [(0, 1), (0, -1), (1, 0), (-1, 0)]

/-- The `forward_diagonals` dictionary of `Car.get_neighbors`. -/
def forward_diagonals : Direction → List (Int × Int)
  | .Right => [(1, 1), (1, -1)]
  | .Left => [(-1, 1), (-1, -1)]
  | .Up => [(1, 1), (-1, 1)]
  | .Down => [(1, -1), (-1, -1)]

/-- The straight-move part of `Car.get_neighbors`: each offset in the
fixed order Up, Down, Right, Left, kept when `is_valid_move` accepts
it, paired with the road direction at the target. -/
def straightNeighbors (g : CityGrid) (cars : List Car) (selfDest : Option Pos)
    (selfId : Nat) (position : Pos) (avoid_cars : Bool) :
    List (Pos × Option Direction) :=
  straight_directions.filterMap fun d =>
    let next_pos : Pos := (position.1 + d.1, position.2 + d.2)
    if is_valid_move g cars selfDest selfId position next_pos avoid_cars then
      some (next_pos, get_road_direction g next_pos)
    else none

/-- The diagonal part of `Car.get_neighbors`: forward diagonals of the
current road direction, allowed only onto a cell with the same road
direction, never onto the car's own destination, only when
`is_valid_move` accepts the diagonal and at least one of the two
orthogonal intermediate cells is a valid move. -/
def diagonalNeighbors (g : CityGrid) (cars : List Car) (selfDest : Option Pos)
    (selfId : Nat) (position : Pos) (avoid_cars : Bool) :
    List (Pos × Option Direction) :=
  match get_road_direction g position with
  | none => []
  | some current_road_dir =>
    (forward_diagonals current_road_dir).filterMap fun d =>
      let next_pos : Pos := (position.1 + d.1, position.2 + d.2)
      if !(inBounds g next_pos) then none
      else
        let next_road_dir := get_road_direction g next_pos
        if next_road_dir ≠ some current_road_dir then none
        else if selfDest = some next_pos then none
        else if is_valid_move g cars selfDest selfId position next_pos avoid_cars then
          let intermediate1 : Pos := (position.1 + d.1, position.2)
          let intermediate2 : Pos := (position.1, position.2 + d.2)
          if is_valid_move g cars selfDest selfId position intermediate1 false ||
             is_valid_move g cars selfDest selfId position intermediate2 false then
            some (next_pos, next_road_dir)
          else none
        else none

/-- `Car.get_neighbors`: straight neighbours first (Up, Down, Right,
Left order), then the permitted forward diagonals. -/
def get_neighbors (g : CityGrid) (cars : List Car) (selfDest : Option Pos)
    (selfId : Nat) (position : Pos) (avoid_cars : Bool) :
    List (Pos × Option Direction) :=
  straightNeighbors g cars selfDest selfId position avoid_cars ++
    diagonalNeighbors g cars selfDest selfId position avoid_cars

/-- One enqueue step of the BFS loop body: skip already-visited
positions, otherwise append the extended path to the queue and mark the
position visited. -/
def bfsEnqueue (path : List Pos) (acc : List (Pos × List Pos) × List Pos)
    (nb : Pos × Option Direction) : List (Pos × List Pos) × List Pos :=
  if acc.2.contains nb.1 then acc
  else (acc.1 ++ [(nb.1, path ++ [nb.1])], acc.2 ++ [nb.1])

/-- The `while queue and iterations < max_iterations` loop of
`Car.bfs_to_destination`; `fuel` counts the remaining permitted
dequeues. -/
def bfsAux (g : CityGrid) (cars : List Car) (selfDest : Option Pos)
    (selfId : Nat) (goal : Pos) (avoid_cars : Bool) :
    Nat → List (Pos × List Pos) → List Pos → Option (List Pos)
  | 0, _, _ => none
  | _ + 1, [], _ => none
  | fuel + 1, (current_pos, path) :: rest, visited =>
    if current_pos = goal then some path
    else
      let ns := get_neighbors g cars selfDest selfId current_pos avoid_cars
      let st := ns.foldl (bfsEnqueue path) (rest, visited)
      bfsAux g cars selfDest selfId goal avoid_cars fuel st.1 st.2

/-- The `max_iterations = 1000` cap of `Car.bfs_to_destination`. -/
def max_iterations : Nat := 1000

/-- `Car.bfs_to_destination`: BFS from `start` to `goal`; returns the
path (including `start`) or `none`. -/
def bfs_to_destination (g : CityGrid) (cars : List Car) (selfDest : Option Pos)
    (selfId : Nat) (start goal : Pos) (avoid_cars : Bool) : Option (List Pos) :=
  if start = goal then some [start]
  else bfsAux g cars selfDest selfId goal avoid_cars max_iterations
    [(start, [start])] [start]

/-- Explicit randomness oracle.  `pick tag tick candidates` models
`random.choice(candidates)` and `shuffle tag tick xs` models
`random.shuffle(xs)`; `tag` is the calling car's id (or the id of the
car being spawned) and `tick` the current step count, so distinct calls
can draw independently.  Theorems that depend on the draws hypothesise
membership (resp. permutation). -/
structure Oracle where
  pick : Nat → Nat → List Pos → Pos
  shuffle : Nat → Nat → List Pos → List Pos

/-- The coordinate enumeration order of `mesa.MultiGrid.coord_iter`:
x-major, y within x. -/
def allPositions (g : CityGrid) : List Pos :=
  (List.range g.width.toNat).flatMap fun x =>
    (List.range g.height.toNat).map fun y => ((x : Int), (y : Int))

/-- The destination-collection scan
(`for agents, pos in self.model.grid.coord_iter(): ... if
isinstance(agent, Destination)`) used by `Car.move`,
`Car.assign_new_destination` and `CityModel.__init__`. -/
def collectDestinations (g : CityGrid) : List Pos :=
  (allPositions g).filter fun p => isDestinationCell g p

/-- The trial loop of `Car.assign_new_destination`: walk the shuffled
candidate list, run a trial BFS (with the car's destination field still
holding the old destination), commit the first candidate whose trial
path has more than one cell, otherwise mark the car for removal. -/
def tryAssignDest (g : CityGrid) (cars : List Car) (car : Car) :
    List Pos → Car
  | [] => { car with to_be_removed := true }
  | dest :: rest =>
    match bfs_to_destination g cars car.destination car.unique_id car.pos dest false with
    | some p =>
      if p.length > 1 then
        { car with destination := some dest, path_to_destination := none,
                   path_calculation_failures := 0 }
      else tryAssignDest g cars car rest
    | none => tryAssignDest g cars car rest

/-- `Car.assign_new_destination`. -/
def assign_new_destination (rnd : Oracle) (g : CityGrid) (tick : Nat)
    (cars : List Car) (car : Car) : Car :=
  let destinations := collectDestinations g
  if destinations.isEmpty then car
  else
    let available := destinations.filter fun dd => decide (some dd ≠ car.destination)
    let available := if available.isEmpty then destinations else available
    tryAssignDest g cars car (rnd.shuffle car.unique_id tick available)

/-- The failure branch of `Car.calculate_path`: clear the path,
increment the failure counter, and reassign after 5 failures. -/
def calcPathFail (rnd : Oracle) (g : CityGrid) (tick : Nat)
    (cars : List Car) (car : Car) : Car :=
  let car := { car with path_to_destination := none,
                        path_calculation_failures := car.path_calculation_failures + 1 }
  if car.path_calculation_failures ≥ 5 then
    assign_new_destination rnd g tick cars car
  else car

/-- `Car.calculate_path`: recompute the cached path when it is absent
or empty; drop the start cell from a successful search. -/
def calculate_path (rnd : Oracle) (g : CityGrid) (tick : Nat)
    (cars : List Car) (car : Car) : Car :=
  match car.destination with
  | none => car
  | some d =>
    match car.path_to_destination with
    | some (_ :: _) => car
    | _ =>
      match bfs_to_destination g cars car.destination car.unique_id car.pos d false with
      | some p =>
        if p.length > 1 then
          { car with path_to_destination := some (p.drop 1),
                     path_calculation_failures := 0 }
        else calcPathFail rnd g tick cars car
      | none => calcPathFail rnd g tick cars car

/-- The stuck-rerouting block of `Car.move` (`wait_time >= 10`): try an
alternative path that avoids current car positions, else clear the
path; reset the wait counter either way. -/
def stuckReroute (g : CityGrid) (cars : List Car) (car : Car) : Car :=
  let car :=
    match car.destination with
    | some d =>
      match bfs_to_destination g cars car.destination car.unique_id car.pos d true with
      | some p =>
        if p.length > 1 then { car with path_to_destination := some (p.drop 1) }
        else { car with path_to_destination := none }
      | none => { car with path_to_destination := none }
    | none => car
  { car with wait_time := 0 }

/-- The destination-assignment block of `Car.move`: a car without a
destination picks a random one (and clears its path), provided any
destination exists. -/
def assignRandomDestination (rnd : Oracle) (g : CityGrid) (tick : Nat)
    (car : Car) : Car :=
  let destinations := collectDestinations g
  if destinations.isEmpty then car
  else
    { car with destination := some (rnd.pick car.unique_id tick destinations),
               path_to_destination := none }

/-- The facing-direction update of `Car.move`: adopt the road direction
at the current cell when one exists. -/
def updateFacing (g : CityGrid) (car : Car) : Car :=
  match get_road_direction g car.pos with
  | some d => { car with facing_direction := some d }
  | none => car

/-- The path-following block of `Car.move`: with a non-empty cached
path, wait if the head cell holds another car or a red light; otherwise
move there, pop the head, update facing, and flag arrival. -/
def followPath (g : CityGrid) (lights : List Traffic_Light) (cars : List Car)
    (car : Car) : Car :=
  match car.path_to_destination with
  | some (next_pos :: restPath) =>
    if has_car g cars car.unique_id next_pos then car
    else if get_traffic_light_state lights next_pos = some false then car
    else
      let car := { car with pos := next_pos, path_to_destination := some restPath }
      let car := updateFacing g car
      if car.destination = some car.pos then { car with to_be_removed := true }
      else car
  | _ => car

/-- The stuck-detection counter update at the top of `Car.move`:
increment the wait counter when the position is unchanged since the
previous tick, else reset it; record the current position. -/
def waitUpdate (car : Car) : Car :=
  let wt := if car.last_position = some car.pos then car.wait_time + 1 else 0
  { car with wait_time := wt, last_position := some car.pos }

/-- The `wait_time >= 10` guard of `Car.move`. -/
def maybeReroute (g : CityGrid) (cars : List Car) (car : Car) : Car :=
  if car.wait_time ≥ 10 then stuckReroute g cars car else car

/-- The `destination is None` guard of `Car.move`. -/
def maybeAssignDest (rnd : Oracle) (g : CityGrid) (tick : Nat) (car : Car) : Car :=
  if car.destination = none then assignRandomDestination rnd g tick car else car

/-- `Car.move` (called from `Car.step`): the full per-tick behaviour in
source order — removed-guard, stuck-detection and rerouting, facing
update, destination assignment, arrival check, path maintenance, path
following. -/
def carMove (rnd : Oracle) (g : CityGrid) (lights : List Traffic_Light)
    (tick : Nat) (cars : List Car) (car : Car) : Car :=
  if car.to_be_removed then car
  else
    let car := waitUpdate car
    let car := maybeReroute g cars car
    let car := updateFacing g car
    let car := maybeAssignDest rnd g tick car
    if (match car.destination with | some d => decide (car.pos = d) | none => false) then
      { car with to_be_removed := true }
    else
      let car := calculate_path rnd g tick cars car
      followPath g lights cars car

/-- `Traffic_Light.step`: flip the phase exactly when the model's step
counter is divisible by the light's period. -/
def trafficLightStep (tick : Nat) (l : Traffic_Light) : Traffic_Light :=
  if tick % l.timeToChange = 0 then { l with state := !l.state } else l

/-- Initial phase chosen by `CityModel.__init__` for a map symbol:
`False if col == "S" else True` (applied to the symbols `S` and `s`). -/
def trafficLightInitialState (sym : Char) : Bool :=
  if sym = 'S' then false else true

/-- The mutable state of `CityModel` (`model.py`): static grid, the
traffic lights (phase is mutable), the live cars in registration order,
and the scheduler's counters and flags. -/
structure ModelState where
  grid : CityGrid
  lights : List Traffic_Light
  cars : List Car
  num_agents : Nat
  steps : Nat
  spawn_interval : Nat
  next_car_id : Nat
  cars_can_move : Bool
  consecutive_failed_spawns : Nat
  corner_positions : List Pos
  destination_positions : List Pos
  running : Bool

/-- The four corner targets of `CityModel._find_corner_positions`. -/
def cornerTargets (g : CityGrid) : List Pos :=
  [(0, g.height - 1), (g.width - 1, g.height - 1), (0, 0), (g.width - 1, 0)]

/-- The inner scan of `CityModel._find_corner_positions`: the first road
cell (in `coord_iter` order) at minimal Manhattan distance from the
target (strict improvement, so ties keep the earlier cell). -/
def nearestRoad (g : CityGrid) (target : Pos) : Option Pos :=
  (allPositions g).foldl
    (fun best p =>
      if (get_road_direction g p).isSome then
        match best with
        | none => some p
        | some b =>
          if (p.1 - target.1).natAbs + (p.2 - target.2).natAbs <
             (b.1 - target.1).natAbs + (b.2 - target.2).natAbs then some p
          else best
      else best)
    none

/-- `CityModel._find_corner_positions`: nearest road cell to each of the
four corners; the empty list unless all four are found. -/
def find_corner_positions (g : CityGrid) : List Pos :=
  let corners := (cornerTargets g).filterMap fun t => nearestRoad g t
  if corners.length = 4 then corners else []

/-- `CityModel.__init__` with the map loading abstracted: the parsed map
(the `city_files` inputs are external to the engine) is handed in as the
static grid and the list of constructed lights.  Note the source clamps
the `spawn_interval` argument (`max(1, int(spawn_interval))`) but never
stores it: the field is hardcoded to 10, and no `Car` is created. -/
def cityModelInit (N : Nat) (spawn_interval_arg : Int) (g : CityGrid)
    (lights : List Traffic_Light) : ModelState :=
  let _clamped : Int := max 1 spawn_interval_arg
  { grid := g
    lights := lights
    cars := []
    num_agents := N
    steps := 0
    spawn_interval := 10
    next_car_id := 0
    cars_can_move := false
    consecutive_failed_spawns := 0
    corner_positions := find_corner_positions g
    destination_positions := collectDestinations g
    running := true }

/-- `CityModel.set_spawn_interval`: stores `max(1, int(interval))`. -/
def set_spawn_interval (m : ModelState) (interval : Int) : ModelState :=
  { m with spawn_interval := (max 1 interval).toNat }

/-- One iteration of the corner loop in
`CityModel.spawn_cars_at_corners`: if no car stands on the corner,
create a fresh car there with a randomly chosen destination and the
corner road's direction. -/
def spawnAtCorner (rnd : Oracle) (tick : Nat) (m : ModelState)
    (acc : ModelState × Nat) (corner_pos : Pos) : ModelState × Nat :=
  if acc.1.cars.any (fun c => c.pos = corner_pos) then acc
  else
    let car : Car :=
      { unique_id := acc.1.next_car_id
        pos := corner_pos
        destination := some (rnd.pick acc.1.next_car_id tick m.destination_positions)
        facing_direction := get_road_direction m.grid corner_pos
        path_to_destination := none
        path_calculation_failures := 0
        wait_time := 0
        last_position := none
        to_be_removed := false }
    ({ acc.1 with cars := acc.1.cars ++ [car],
                  next_car_id := acc.1.next_car_id + 1 },
     acc.2 + 1)

/-- `CityModel.spawn_cars_at_corners`: skip when fewer than four corners
or no destinations; otherwise run the corner loop.  Returns the updated
state and the spawn count. -/
def spawn_cars_at_corners (rnd : Oracle) (tick : Nat) (m : ModelState) :
    ModelState × Nat :=
  if m.corner_positions.length < 4 then (m, 0)
  else if m.destination_positions.length = 0 then (m, 0)
  else m.corner_positions.foldl (spawnAtCorner rnd tick m) (m, 0)

/-- The car portion of the agent loop in `CityModel.step`: cars act in
registration order, each seeing the positions already updated by the
cars before it (`done`) and the not-yet-moved rest. -/
def stepCarsAux (rnd : Oracle) (g : CityGrid) (lights : List Traffic_Light)
    (tick : Nat) : List Car → List Car → List Car
  | done, [] => done
  | done, c :: todo =>
    let c' := carMove rnd g lights tick (done ++ c :: todo) c
    stepCarsAux rnd g lights tick (done ++ [c']) todo

/-- The final saturation check of `CityModel.step`: after 5 consecutive
failed spawn occasions the simulation stops running. -/
def saturationCheck (m : ModelState) : ModelState :=
  if m.consecutive_failed_spawns ≥ 5 then { m with running := false } else m

/-- `CityModel.step`: increment the tick, spawn when the cadence is due
(tracking consecutive failed spawn occasions and unlocking car
movement on the first success), step every light (all lights precede
all cars in registration order), step every car if movement is
unlocked, sweep cars flagged for removal, and halt after 5 consecutive
failed spawn occasions. -/
def modelStep (rnd : Oracle) (m0 : ModelState) : ModelState :=
  let m1 := { m0 with steps := m0.steps + 1 }
  let m2 :=
    if m1.steps % m1.spawn_interval = 0 then
      let sp := spawn_cars_at_corners rnd m1.steps m1
      if 0 < sp.2 then
        { sp.1 with consecutive_failed_spawns := 0, cars_can_move := true }
      else
        { sp.1 with consecutive_failed_spawns := sp.1.consecutive_failed_spawns + 1 }
    else m1
  let lights' := m2.lights.map (trafficLightStep m2.steps)
  let cars' :=
    if m2.cars_can_move then stepCarsAux rnd m2.grid lights' m2.steps [] m2.cars
    else m2.cars
  let cars'' := cars'.filter fun c => !c.to_be_removed
  let m3 : ModelState := { m2 with lights := lights', cars := cars'' }
  saturationCheck m3

/-- The `/update` endpoint (`server_traffic.py`, `updateModel`): the
external `step()`; it advances the model only while `running` holds. -/
def updateModel (rnd : Oracle) (m : ModelState) : ModelState :=
  if m.running then modelStep rnd m else m

/-- The attribute names a `CityModel` instance ever receives from
`model.py` (`__init__` and `step`), together with those that
`mesa.Model.__init__` provides.  No other assignment to the model object
exists in the repository. -/
def cityModelAttributeNames : List String :=
  ["random", "rng", "_agents", "_agents_by_type", "_all_agents", "agents",
   "model_params", "traffic_lights", "width", "height", "grid",
   "num_agents", "steps", "spawn_interval", "next_car_id", "cars_can_move",
   "consecutive_failed_spawns", "corner_positions", "destination_positions",
   "running"]

/-- Python attribute lookup: `getattr` succeeds exactly on the names the
object carries, otherwise raises `AttributeError` (modelled as
`Except.error name`). -/
def getattrModel (attrs : List String) (name : String) : Except String Unit :=
  if name ∈ attrs then Except.ok () else Except.error name

/-- The `/getMetrics` endpoint (`server_traffic.py`, `getMetrics`): it
reads `total_cars_spawned`, `cars_reached_destination` and
`current_cars_in_simulation` from the model; the first failing lookup
raises, and the surrounding `try/except` turns that into the error
response. -/
def getMetricsEndpoint (attrs : List String) : Except String Unit := do
  let _ ← getattrModel attrs "total_cars_spawned"
  let _ ← getattrModel attrs "cars_reached_destination"
  let _ ← getattrModel attrs "current_cars_in_simulation"
  pure ()

/-! ## Concrete scenarios

Small grids (all expressible as parsed map files of the format
`CityModel.__init__` consumes: destination cells carry a road placed
underneath, obstacle cells carry only the obstacle) plus concrete
oracles, used to evaluate the embedded code at specific inputs. -/

/-- A deterministic oracle: `random.choice` takes the first candidate,
`random.shuffle` leaves the order unchanged (one realisable draw). -/
def oracleId : Oracle :=
  { pick := fun _ _ l => l.headD (0, 0), shuffle := fun _ _ l => l }

/-- An oracle whose `random.choice` takes the last candidate. -/
def oracleLast : Oracle :=
  { pick := fun _ _ l => l.getLastD (0, 0), shuffle := fun _ _ l => l }

/-- Map `[">>", "DD"]`: a 2×2 grid, all cells roads pointing Right, the
two bottom cells also destinations. -/
def gridDD : CityGrid :=
  { width := 2, height := 2,
    cells := fun p =>
      if p = ((0 : Int), (0 : Int)) then [.road .Right, .destination]
      else if p = ((1 : Int), (0 : Int)) then [.road .Right, .destination]
      else if 0 ≤ p.1 ∧ p.1 < 2 ∧ 0 ≤ p.2 ∧ p.2 < 2 then [.road .Right]
      else [] }

/-- Map `[">>>", ">>D"]` flipped: a 3×2 grid of Right-roads with a
destination at `(2,0)`. -/
def gridLane : CityGrid :=
  { width := 3, height := 2,
    cells := fun p =>
      if p = ((2 : Int), (0 : Int)) then [.road .Right, .destination]
      else if 0 ≤ p.1 ∧ p.1 < 3 ∧ 0 ≤ p.2 ∧ p.2 < 2 then [.road .Right]
      else [] }

/-- A 3×3 grid: road at `(0,0)`, road+destination at `(1,0)`, and an
isolated road+destination at `(0,2)` with no connection to the rest. -/
def gridIsolated : CityGrid :=
  { width := 3, height := 3,
    cells := fun p =>
      if p = ((0 : Int), (0 : Int)) then [.road .Right]
      else if p = ((1 : Int), (0 : Int)) then [.road .Right, .destination]
      else if p = ((0 : Int), (2 : Int)) then [.road .Right, .destination]
      else [] }

/-- A roadless grid (no spawning is ever possible). -/
def gridEmpty : CityGrid := { width := 2, height := 2, cells := fun _ => [] }

/-- A car on `gridLane` at the road start with a cached two-step path,
already stuck for 9 ticks. -/
def carStuck : Car :=
  { unique_id := 0, pos := (0, 0), destination := some (2, 0),
    facing_direction := some .Right,
    path_to_destination := some [(1, 0), (2, 0)],
    path_calculation_failures := 0, wait_time := 9,
    last_position := some (0, 0), to_be_removed := false }

/-- The same car before any waiting. -/
def carFresh : Car := { carStuck with wait_time := 0, last_position := none }

/-- A second car blocking the cell `(1,0)` ahead of `carStuck`. -/
def carBlocker : Car :=
  { unique_id := 1, pos := (1, 0), destination := some (2, 0),
    facing_direction := some .Right, path_to_destination := none,
    path_calculation_failures := 0, wait_time := 0,
    last_position := none, to_be_removed := false }

/-- A car on `gridIsolated` whose destination `(0,2)` is unreachable and
whose pathfinding has already failed 4 consecutive times. -/
def carFailing : Car :=
  { unique_id := 0, pos := (0, 0), destination := some (0, 2),
    facing_direction := some .Right, path_to_destination := none,
    path_calculation_failures := 4, wait_time := 0,
    last_position := none, to_be_removed := false }

/-- A halted model over the empty grid: no corners, no destinations,
spawn due every tick, already out of `running`. -/
def modelHalted : ModelState :=
  let base := cityModelInit 5 7 gridEmpty []
  { base with
      spawn_interval := 1,
      consecutive_failed_spawns := 4,
      running := false }

/-- A traffic light with period 2, used to instantiate the timing
theorems. -/
def lightSample : Traffic_Light := { pos := (0, 0), state := false, timeToChange := 2 }

/-! ## Invariant predicates -/

/-- A cell is admissible for a car with destination field `sd`: it holds
no obstacle, and if it holds a `Destination` it is the car's own. -/
def cellOK (g : CityGrid) (sd : Option Pos) (p : Pos) : Prop :=
  obstacleAt g p = false ∧ (isDestinationCell g p = true → sd = some p)

instance (g : CityGrid) (sd : Option Pos) (p : Pos) : Decidable (cellOK g sd p) := by
  unfold cellOK; infer_instance

/-- The claimed occupancy invariant for one car: its position holds no
obstacle and no foreign destination. -/
def carPosOK (g : CityGrid) (car : Car) : Prop :=
  cellOK g car.destination car.pos

instance (g : CityGrid) (car : Car) : Decidable (carPosOK g car) := by
  unfold carPosOK; infer_instance

/-- Every cell of the car's cached path is admissible for the car; this
is what the BFS guarantees and what path-following relies on. -/
def carPathOK (g : CityGrid) (car : Car) : Prop :=
  ∀ p ∈ car.path_to_destination.getD [], cellOK g car.destination p

instance (g : CityGrid) (car : Car) : Decidable (carPathOK g car) := by
  unfold carPathOK; infer_instance

/-- Queue-entry invariant of the BFS loop: every queued path starts at
`start`, its later cells satisfy `Q`, and it ends at the queued
position. -/
def pathInv (start : Pos) (Q : Pos → Prop) (e : Pos × List Pos) : Prop :=
  ∃ r : List Pos, e.2 = start :: r ∧ (∀ c ∈ r, Q c) ∧ e.2.getLast? = some e.1

/-! ## Theorems -/

/-- **C10.** `set_spawn_interval(n)` stores `max(1, int(n))`: the stored
cadence equals `max 1 n`, is at least 1, and in particular is never
zero, so the scheduler's spawn test `steps % spawn_interval == 0` never
divides by zero. -/
theorem c10_spawn_interval_clamped (m : ModelState) (n : Int) :
    ((set_spawn_interval m n).spawn_interval : Int) = max 1 n
    ∧ 1 ≤ (set_spawn_interval m n).spawn_interval
    ∧ (set_spawn_interval m n).spawn_interval ≠ 0 := by
  have h1 : (1 : Int) ≤ max 1 n := le_max_left 1 n
  refine ⟨?_, ?_, ?_⟩
  · simp only [set_spawn_interval]
    exact Int.toNat_of_nonneg (le_trans (by norm_num) h1)
  · simp only [set_spawn_interval]
    omega
  · simp only [set_spawn_interval]
    omega

/-- **C2 counterexample.** Constructing the model with initial car
count 3 and spawn interval 7 yields neither 3 live cars (it yields
none) nor a spawn cadence of 7 (the field is hardcoded to 10). -/
theorem c2_init_counterexample :
    (cityModelInit 3 7 gridDD []).cars.length ≠ 3
    ∧ (cityModelInit 3 7 gridDD []).spawn_interval ≠ 7 := by
  constructor
  · decide
  · decide

/-- **C2 amended.** The constructor stores the car count only as
`num_agents` and places no car on the grid before the first tick (cars
are spawned at corners during later steps), and the stored spawn
cadence is the hardcoded default 10, regardless of the
`spawn_interval` argument (which is clamped and then discarded; the
cadence changes only through `set_spawn_interval`). -/
theorem c2_init_no_cars_default_interval (N : Nat) (s : Int) (g : CityGrid)
    (ls : List Traffic_Light) :
    (cityModelInit N s g ls).cars = []
    ∧ (cityModelInit N s g ls).spawn_interval = 10
    ∧ (cityModelInit N s g ls).num_agents = N := by
  refine ⟨rfl, rfl, rfl⟩

/-- **C9.** The `/getMetrics` endpoint reads the attribute
`total_cars_spawned` (then `cars_reached_destination`,
`current_cars_in_simulation`) from the model, but `CityModel` never
defines any of them, so the lookup raises `AttributeError` and the
endpoint returns the error response instead of the metrics record. -/
theorem c9_metrics_attribute_missing :
    getMetricsEndpoint cityModelAttributeNames = Except.error "total_cars_spawned"
    ∧ "total_cars_spawned" ∉ cityModelAttributeNames
    ∧ "cars_reached_destination" ∉ cityModelAttributeNames
    ∧ "current_cars_in_simulation" ∉ cityModelAttributeNames := by
  refine ⟨rfl, by decide, by decide, by decide⟩

/-- The saturation check leaves the failure counter unchanged and sets
`running := false` whenever that counter has reached 5. -/
lemma saturationCheck_spec (m : ModelState) :
    (saturationCheck m).consecutive_failed_spawns = m.consecutive_failed_spawns
    ∧ (m.consecutive_failed_spawns ≥ 5 → (saturationCheck m).running = false) := by
  unfold saturationCheck
  split
  · exact ⟨rfl, fun _ => rfl⟩
  · next h => exact ⟨rfl, fun h5 => absurd h5 h⟩

/-- `modelStep` is a `saturationCheck` of an intermediate state. -/
lemma modelStep_eq_saturationCheck (rnd : Oracle) (m : ModelState) :
    ∃ m3 : ModelState, modelStep rnd m = saturationCheck m3 := by
  exact ⟨_, rfl⟩

/-- **C1.** Once the streak of consecutive failed spawn occasions
reaches 5, the step that observed it reports `running = false`; and a
halted model is a fixed point of the external `step()` (`/update`): any
number of further calls leaves the whole state — in particular the tick
counter `steps` and every agent — unchanged. -/
theorem c1_saturation_is_terminal (rnd : Oracle) (m : ModelState) :
    ((modelStep rnd m).consecutive_failed_spawns ≥ 5 →
      (modelStep rnd m).running = false)
    ∧ (m.running = false → ∀ k : Nat, (updateModel rnd)^[k] m = m) := by
  constructor
  · intro h
    obtain ⟨m3, hm3⟩ := modelStep_eq_saturationCheck rnd m
    rw [hm3] at h ⊢
    exact (saturationCheck_spec m3).2 (by rw [(saturationCheck_spec m3).1] at h; exact h)
  · intro hrun k
    have hfix : updateModel rnd m = m := by
      unfold updateModel
      rw [hrun]
      simp
    induction k with
    | zero => rfl
    | succ n ih => rw [Function.iterate_succ_apply, hfix, ih]

/-- **C1 witness.** On the roadless model with spawn interval 1 and a
streak of 4, one step pushes the streak to 5 and reports
`running = false`; and since the model is halted, three further
external steps leave it untouched. -/
theorem c1_saturation_witness :
    ((modelStep oracleId modelHalted).consecutive_failed_spawns ≥ 5
      ∧ (modelStep oracleId modelHalted).running = false)
    ∧ (modelHalted.running = false
      ∧ (updateModel oracleId)^[3] modelHalted = modelHalted) :=
  ⟨⟨by decide, (c1_saturation_is_terminal oracleId modelHalted).1 (by decide)⟩,
   ⟨rfl, (c1_saturation_is_terminal oracleId modelHalted).2 rfl 3⟩⟩

/-- Spawning touches only `cars` and `next_car_id`: the corner loop
preserves the lights and the step counter of the accumulator. -/
lemma spawn_foldl_preserves (rnd : Oracle) (tick : Nat) (m : ModelState)
    (l : List Pos) (acc : ModelState × Nat) :
    (l.foldl (spawnAtCorner rnd tick m) acc).1.lights = acc.1.lights
    ∧ (l.foldl (spawnAtCorner rnd tick m) acc).1.steps = acc.1.steps := by
  induction l generalizing acc with
  | nil => exact ⟨rfl, rfl⟩
  | cons c rest ih =>
    simp only [List.foldl_cons]
    have hstep : (spawnAtCorner rnd tick m acc c).1.lights = acc.1.lights
        ∧ (spawnAtCorner rnd tick m acc c).1.steps = acc.1.steps := by
      unfold spawnAtCorner
      split
      · exact ⟨rfl, rfl⟩
      · exact ⟨rfl, rfl⟩
    rw [(ih (spawnAtCorner rnd tick m acc c)).1, (ih (spawnAtCorner rnd tick m acc c)).2,
        hstep.1, hstep.2]
    exact ⟨rfl, rfl⟩

/-- `spawn_cars_at_corners` preserves the lights and the step
counter. -/
lemma spawn_preserves (rnd : Oracle) (tick : Nat) (m : ModelState) :
    (spawn_cars_at_corners rnd tick m).1.lights = m.lights
    ∧ (spawn_cars_at_corners rnd tick m).1.steps = m.steps := by
  unfold spawn_cars_at_corners
  split
  · exact ⟨rfl, rfl⟩
  · split
    · exact ⟨rfl, rfl⟩
    · exact spawn_foldl_preserves rnd tick m m.corner_positions (m, 0)

/-- The saturation check never touches the lights. -/
lemma saturationCheck_lights (m : ModelState) :
    (saturationCheck m).lights = m.lights := by
  unfold saturationCheck
  split
  · rfl
  · rfl

/-- Within one scheduler tick the lights update as a pure map: every
light is stepped once with the already-incremented step counter, and
nothing later in the tick (car moves, sweep, saturation check) touches
them. -/
lemma modelStep_lights (rnd : Oracle) (m : ModelState) :
    (modelStep rnd m).lights = m.lights.map (trafficLightStep (m.steps + 1)) := by
  unfold modelStep
  simp only [saturationCheck_lights]
  split
  · split
    · dsimp only
      rw [(spawn_preserves rnd (m.steps + 1) _).1, (spawn_preserves rnd (m.steps + 1) _).2]
    · dsimp only
      rw [(spawn_preserves rnd (m.steps + 1) _).1, (spawn_preserves rnd (m.steps + 1) _).2]
  · rfl

/-- **C5.** A traffic light with period `p` flips exactly on ticks whose
(already-incremented) step count is divisible by `p` and is otherwise
unchanged; the initial phase is red for the map symbol `S` and green for
`s`; and inside the scheduler every tick maps each light independently
through `trafficLightStep` with the new step count. -/
theorem c5_traffic_light_timing (tick : Nat) (l : Traffic_Light)
    (rnd : Oracle) (m : ModelState) :
    ((l.timeToChange ∣ tick → (trafficLightStep tick l).state = !l.state)
      ∧ (¬ l.timeToChange ∣ tick → (trafficLightStep tick l).state = l.state)
      ∧ (trafficLightStep tick l).timeToChange = l.timeToChange)
    ∧ trafficLightInitialState 'S' = false
    ∧ trafficLightInitialState 's' = true
    ∧ (modelStep rnd m).lights = m.lights.map (trafficLightStep (m.steps + 1)) := by
  refine ⟨⟨?_, ?_, ?_⟩, rfl, rfl, modelStep_lights rnd m⟩
  · intro hdvd
    unfold trafficLightStep
    rw [if_pos (Nat.mod_eq_zero_of_dvd hdvd)]
  · intro hdvd
    unfold trafficLightStep
    rw [if_neg fun hmod => hdvd (Nat.dvd_of_mod_eq_zero hmod)]
  · unfold trafficLightStep
    split
    · rfl
    · rfl

/-- **C5 witness.** Instantiated with the period-2 light: at tick 4 the
phase flips, and the conclusion holds for the halted sample model. -/
theorem c5_traffic_light_witness :
    (((lightSample.timeToChange ∣ 4 →
          (trafficLightStep 4 lightSample).state = !lightSample.state)
        ∧ (¬ lightSample.timeToChange ∣ 4 →
          (trafficLightStep 4 lightSample).state = lightSample.state)
        ∧ (trafficLightStep 4 lightSample).timeToChange = lightSample.timeToChange)
      ∧ trafficLightInitialState 'S' = false
      ∧ trafficLightInitialState 's' = true
      ∧ (modelStep oracleId modelHalted).lights =
          modelHalted.lights.map (trafficLightStep (modelHalted.steps + 1)))
    ∧ (trafficLightStep 4 lightSample).state = true :=
  ⟨c5_traffic_light_timing 4 lightSample oracleId modelHalted,
   (c5_traffic_light_timing 4 lightSample oracleId modelHalted).1.1 (by decide)⟩

/-- Everything a surviving diagonal-filter branch returns is the
diagonal offset applied to the position. -/
lemma diagonalNeighbors_shape (g : CityGrid) (cars : List Car)
    (sd : Option Pos) (uid : Nat) (p : Pos) (av : Bool) :
    ∀ nb ∈ diagonalNeighbors g cars sd uid p av, ∃ dx dy : Int,
      (dx = 1 ∨ dx = -1) ∧ (dy = 1 ∨ dy = -1) ∧ nb.1 = (p.1 + dx, p.2 + dy) := by
  intro nb hnb
  unfold diagonalNeighbors at hnb
  rcases hd : get_road_direction g p with _ | d
  · rw [hd] at hnb
    simp at hnb
  · rw [hd] at hnb
    obtain ⟨off, hoff, heq⟩ := List.mem_filterMap.mp hnb
    have hshape : nb.1 = (p.1 + off.1, p.2 + off.2) := by
      simp only at heq
      split at heq
      · exact absurd heq (by simp)
      · split at heq
        · exact absurd heq (by simp)
        · split at heq
          · exact absurd heq (by simp)
          · split at heq
            · split at heq
              · cases heq
                rfl
              · exact absurd heq (by simp)
            · exact absurd heq (by simp)
    have hcases : (off.1 = 1 ∨ off.1 = -1) ∧ (off.2 = 1 ∨ off.2 = -1) := by
      cases d <;> simp [forward_diagonals] at hoff <;> rcases hoff with h | h <;>
        rw [h] <;> simp
    exact ⟨off.1, off.2, hcases.1, hcases.2, hshape⟩

/-- **C6.** The BFS pathfinder is a pure function of the grid state, the
car's identity/destination and the `avoid_cars` flag, so two invocations
with unchanged inputs return the identical result; and neighbour
generation is deterministic, emitting the straight moves in the fixed
offset order Up `(0,1)`, Down `(0,-1)`, Right `(1,0)`, Left `(-1,0)`
(each kept exactly when `is_valid_move` accepts it) before the permitted
diagonal moves. -/
theorem c6_bfs_deterministic_neighbor_order (g : CityGrid) (cars : List Car)
    (sd : Option Pos) (uid : Nat) (s t p : Pos) (av : Bool) :
    bfs_to_destination g cars sd uid s t av = bfs_to_destination g cars sd uid s t av
    ∧ get_neighbors g cars sd uid p av =
      (([(0, 1), (0, -1), (1, 0), (-1, 0)] : List (Int × Int)).filterMap fun d =>
        let next_pos : Pos := (p.1 + d.1, p.2 + d.2)
        if is_valid_move g cars sd uid p next_pos av then
          some (next_pos, get_road_direction g next_pos)
        else none) ++ diagonalNeighbors g cars sd uid p av
    ∧ ∀ nb ∈ diagonalNeighbors g cars sd uid p av, ∃ dx dy : Int,
        (dx = 1 ∨ dx = -1) ∧ (dy = 1 ∨ dy = -1) ∧ nb.1 = (p.1 + dx, p.2 + dy) :=
  ⟨rfl, rfl, diagonalNeighbors_shape g cars sd uid p av⟩

/-- **C6 witness.** On `gridLane` at the road start the neighbour list
decomposes as straight-then-diagonal and evaluates to Up, Right, then
the one permitted diagonal. -/
theorem c6_neighbor_order_witness :
    get_neighbors gridLane [] (some (2, 0)) 0 (0, 0) false =
      (([(0, 1), (0, -1), (1, 0), (-1, 0)] : List (Int × Int)).filterMap fun d =>
        let next_pos : Pos := ((0 : Int) + d.1, (0 : Int) + d.2)
        if is_valid_move gridLane [] (some (2, 0)) 0 (0, 0) next_pos false then
          some (next_pos, get_road_direction gridLane next_pos)
        else none) ++ diagonalNeighbors gridLane [] (some (2, 0)) 0 (0, 0) false
    ∧ get_neighbors gridLane [] (some (2, 0)) 0 (0, 0) false =
        [((0, 1), some .Right), ((1, 0), some .Right), ((1, 1), some .Right)] :=
  ⟨(c6_bfs_deterministic_neighbor_order gridLane [] (some (2, 0)) 0 (0, 0) (2, 0)
      (0, 0) false).2.1,
   by decide⟩

/-- Every neighbour returned by `get_neighbors` passed
`is_valid_move`. -/
lemma neighbors_valid (g : CityGrid) (cars : List Car) (sd : Option Pos)
    (uid : Nat) (pos : Pos) (av : Bool) :
    ∀ nb ∈ get_neighbors g cars sd uid pos av,
      is_valid_move g cars sd uid pos nb.1 av = true := by
  intro nb hnb
  unfold get_neighbors at hnb
  rcases List.mem_append.mp hnb with h | h
  · unfold straightNeighbors at h
    obtain ⟨d, _, heq⟩ := List.mem_filterMap.mp h
    simp only at heq
    split at heq
    · next hvalid =>
      rw [← Option.some.inj heq]
      exact hvalid
    · exact absurd heq (by simp)
  · unfold diagonalNeighbors at h
    rcases hd : get_road_direction g pos with _ | dir
    · rw [hd] at h
      simp at h
    · rw [hd] at h
      obtain ⟨d, _, heq⟩ := List.mem_filterMap.mp h
      simp only at heq
      split at heq
      · exact absurd heq (by simp)
      · split at heq
        · exact absurd heq (by simp)
        · split at heq
          · exact absurd heq (by simp)
          · split at heq
            · next hvalid =>
              split at heq
              · rw [← Option.some.inj heq]
                exact hvalid
              · exact absurd heq (by simp)
            · exact absurd heq (by simp)

/-- The enqueue fold of the BFS loop body preserves the queue
invariant, given that the dequeued path obeys it and all enqueued
neighbours satisfy `Q`. -/
lemma foldl_bfsEnqueue_inv (start : Pos) (Q : Pos → Prop) (path : List Pos)
    (hpath : ∃ r, path = start :: r ∧ ∀ c ∈ r, Q c)
    (ns : List (Pos × Option Direction)) (hns : ∀ nb ∈ ns, Q nb.1) :
    ∀ q v, (∀ e ∈ q, pathInv start Q e) →
      ∀ e ∈ (ns.foldl (bfsEnqueue path) (q, v)).1, pathInv start Q e := by
  induction ns with
  | nil => intro q v hq; exact hq
  | cons nb rest ih =>
    intro q v hq
    simp only [List.foldl_cons]
    have hrest : ∀ x ∈ rest, Q x.1 := fun x hx => hns x (List.mem_cons_of_mem _ hx)
    rcases hc : v.contains nb.1 with _ | _
    · have hbe : bfsEnqueue path (q, v) nb =
          (q ++ [(nb.1, path ++ [nb.1])], v ++ [nb.1]) := by
        unfold bfsEnqueue
        rw [hc]
        rfl
      rw [hbe]
      apply ih hrest
      intro e he
      rcases List.mem_append.mp he with h | h
      · exact hq e h
      · obtain ⟨r, hr1, hr2⟩ := hpath
        have he' : e = (nb.1, path ++ [nb.1]) := by simpa using h
        subst he'
        refine ⟨r ++ [nb.1], ?_, ?_, ?_⟩
        · rw [hr1]
          rfl
        · intro c hc'
          rcases List.mem_append.mp hc' with h' | h'
          · exact hr2 c h'
          · have : c = nb.1 := by simpa using h'
            subst this
            exact hns nb (List.mem_cons_self _ _)
        · exact List.getLast?_concat _
    · have hbe : bfsEnqueue path (q, v) nb = (q, v) := by
        unfold bfsEnqueue
        rw [hc]
        rfl
      rw [hbe]
      exact ih hrest q v hq

/-- BFS soundness: any returned path starts at `start`, its later
cells all satisfy any predicate implied by `is_valid_move`, and it ends
at the goal. -/
lemma bfsAux_sound (g : CityGrid) (cars : List Car) (sd : Option Pos)
    (uid : Nat) (goal : Pos) (av : Bool) (start : Pos) (Q : Pos → Prop)
    (hQ : ∀ f t, is_valid_move g cars sd uid f t av = true → Q t) :
    ∀ (fuel : Nat) (q : List (Pos × List Pos)) (v : List Pos),
      (∀ e ∈ q, pathInv start Q e) →
      ∀ p, bfsAux g cars sd uid goal av fuel q v = some p →
        ∃ r, p = start :: r ∧ (∀ c ∈ r, Q c) ∧ p.getLast? = some goal := by
  intro fuel
  induction fuel with
  | zero =>
    intro q v _ p hp
    exact absurd hp (by simp [bfsAux])
  | succ n ih =>
    intro q v hq p hp
    match q, hq with
    | [], _ => exact absurd hp (by simp [bfsAux])
    | (cur, path) :: rest, hq =>
      unfold bfsAux at hp
      split at hp
      · next hgoal =>
        obtain ⟨r, hr1, hr2, hr3⟩ := hq (cur, path) (List.mem_cons_self _ _)
        cases hp
        exact ⟨r, hr1, hr2, by rw [hr3, hgoal]⟩
      · obtain ⟨r, hr1, hr2, _⟩ := hq (cur, path) (List.mem_cons_self _ _)
        refine ih _ _ ?_ p hp
        apply foldl_bfsEnqueue_inv start Q path ⟨r, hr1, hr2⟩ _
          (fun nb hnb => hQ cur nb.1 (neighbors_valid g cars sd uid cur av nb hnb))
        intro e he
        exact hq e (List.mem_cons_of_mem _ he)

/-- **C8.** The BFS pathfinder always terminates with a definite
answer: either it returns a path, which then leads from the start to
the goal, or it returns `none` (in particular when the fuel — the
source's `max_iterations = 1000` cap on dequeues — runs out). -/
theorem c8_bfs_terminates (g : CityGrid) (cars : List Car) (sd : Option Pos)
    (uid : Nat) (s t : Pos) (av : Bool) :
    (∃ p, bfs_to_destination g cars sd uid s t av = some p
      ∧ p.head? = some s ∧ p.getLast? = some t)
    ∨ bfs_to_destination g cars sd uid s t av = none := by
  rcases hres : bfs_to_destination g cars sd uid s t av with _ | p
  · right
    rfl
  · left
    refine ⟨p, rfl, ?_⟩
    unfold bfs_to_destination at hres
    split at hres
    · next hst =>
      cases hres
      subst hst
      exact ⟨rfl, rfl⟩
    · obtain ⟨r, hr1, _, hlast⟩ :=
        bfsAux_sound g cars sd uid t av s (fun _ => True) (fun _ _ _ => trivial)
          max_iterations [(s, [s])] [s]
          (by
            intro e he
            have : e = (s, [s]) := by simpa using he
            subst this
            exact ⟨[], rfl, by simp, rfl⟩)
          p hres
      subst hr1
      exact ⟨rfl, hlast⟩

/-- **C4 counterexample.** `carStuck` has the non-empty cached path
`[(1,0),(2,0)]` whose head `(1,0)` is occupied by `carBlocker`, yet its
tick does not leave it in place: having waited 9 ticks already, the
stuck-detection layer (threshold 10) fires first, the avoid-cars reroute
succeeds via the second lane, and the car moves to `(1,1)` with a new
path — so the claim fails as stated for cars at the stuck threshold. -/
theorem c4_blocked_head_counterexample :
    carStuck.path_to_destination = some [(1, 0), (2, 0)]
    ∧ has_car gridLane [carStuck, carBlocker] carStuck.unique_id (1, 0) = true
    ∧ (carMove oracleId gridLane [] 1 [carStuck, carBlocker] carStuck).pos ≠ carStuck.pos
    ∧ (carMove oracleId gridLane [] 1 [carStuck, carBlocker] carStuck).path_to_destination
        ≠ carStuck.path_to_destination := by
  refine ⟨rfl, by decide, by decide, by decide⟩

/-- `calculate_path` does nothing when a non-empty path is cached. -/
lemma calculate_path_keeps_nonempty (rnd : Oracle) (g : CityGrid) (tick : Nat)
    (cars : List Car) (car : Car) (d : Pos) (next : Pos) (rest : List Pos)
    (hdest : car.destination = some d)
    (hpath : car.path_to_destination = some (next :: rest)) :
    calculate_path rnd g tick cars car = car := by
  unfold calculate_path
  rw [hdest, hpath]

/-- `followPath` waits (car unchanged) when the path head is occupied
by another car or carries a red light. -/
lemma followPath_blocked (g : CityGrid) (lights : List Traffic_Light)
    (cars : List Car) (car : Car) (next : Pos) (rest : List Pos)
    (hpath : car.path_to_destination = some (next :: rest))
    (hblock : has_car g cars car.unique_id next = true
      ∨ get_traffic_light_state lights next = some false) :
    followPath g lights cars car = car := by
  unfold followPath
  rw [hpath]
  by_cases hc : has_car g cars car.unique_id next = true
  · simp only [hc, if_true]
  · simp [hc, hblock.resolve_left hc]

/-- **C4 amended.** A car with a non-empty cached path whose head cell
is occupied by another car or carries a red light stays in place with
its path intact — provided the car has a destination and its stuck
counter has not just reached the rerouting threshold of 10 consecutive
waits (at the threshold the stuck-detection layer may replace or clear
the path and even move the car, as the counterexample shows). -/
theorem c4_blocked_head_waits (rnd : Oracle) (g : CityGrid)
    (lights : List Traffic_Light) (tick : Nat) (cars : List Car) (car : Car)
    (next : Pos) (rest : List Pos)
    (hpath : car.path_to_destination = some (next :: rest))
    (hblock : has_car g cars car.unique_id next = true
      ∨ get_traffic_light_state lights next = some false)
    (hdest : car.destination.isSome)
    (hwait : (if car.last_position = some car.pos then car.wait_time + 1 else 0) < 10) :
    (carMove rnd g lights tick cars car).pos = car.pos
    ∧ (carMove rnd g lights tick cars car).path_to_destination
        = car.path_to_destination := by
  obtain ⟨d, hd⟩ := Option.isSome_iff_exists.mp hdest
  obtain ⟨uid, pos, dest, facing, path, fails, wt0, lastp, rem⟩ := car
  simp only at hpath hwait hblock hd
  subst hd
  subst hpath
  cases rem with
  | true => exact ⟨rfl, rfl⟩
  | false =>
    unfold carMove waitUpdate maybeReroute maybeAssignDest
    dsimp only
    rw [if_neg (not_le.mpr hwait)]
    unfold updateFacing
    dsimp only
    rcases hr : get_road_direction g pos with _ | dir
    · rw [if_neg (by simp : ¬ (some d = none))]
      by_cases hpd : pos = d
      · simp [hpd]
      · rw [calculate_path_keeps_nonempty rnd g tick cars _ d next rest rfl rfl]
        rw [followPath_blocked g lights cars _ next rest rfl hblock]
        simp [hpd]
    · rw [if_neg (by simp : ¬ (some d = none))]
      by_cases hpd : pos = d
      · simp [hpd]
      · rw [calculate_path_keeps_nonempty rnd g tick cars _ d next rest rfl rfl]
        rw [followPath_blocked g lights cars _ next rest rfl hblock]
        simp [hpd]

/-- **C4 witness.** `carFresh` (wait counter 0) behind `carBlocker`
satisfies the hypotheses, and its tick indeed leaves both its position
and its cached path unchanged. -/
theorem c4_blocked_head_witness :
    carFresh.path_to_destination = some [(1, 0), (2, 0)]
    ∧ has_car gridLane [carFresh, carBlocker] carFresh.unique_id (1, 0) = true
    ∧ carFresh.destination.isSome = true
    ∧ (if carFresh.last_position = some carFresh.pos then carFresh.wait_time + 1 else 0) < 10
    ∧ (carMove oracleId gridLane [] 1 [carFresh, carBlocker] carFresh).pos = carFresh.pos
    ∧ (carMove oracleId gridLane [] 1 [carFresh, carBlocker] carFresh).path_to_destination
        = carFresh.path_to_destination :=
  ⟨rfl, by decide, by decide, by decide,
   c4_blocked_head_waits oracleId gridLane [] 1 [carFresh, carBlocker] carFresh
     (1, 0) [(2, 0)] rfl (Or.inl (by decide)) (by decide) (by decide)⟩

/-- A move accepted by `is_valid_move` targets a cell without an
obstacle, and if the cell holds a `Destination` it is the moving car's
own destination. -/
lemma valid_move_cellOK (g : CityGrid) (cars : List Car) (sd : Option Pos)
    (uid : Nat) (f t : Pos) (av : Bool)
    (h : is_valid_move g cars sd uid f t av = true) : cellOK g sd t := by
  unfold is_valid_move at h
  split at h
  · exact absurd h (by simp)
  · next h1 =>
    split at h
    · exact absurd h (by simp)
    · next h2 =>
      split at h
      · exact absurd h (by simp)
      · next h3 =>
        constructor
        · have hb : inBounds g t = true := by
            simpa using h1
          have : has_obstacle g t = false := by
            simpa using h2
          unfold has_obstacle at this
          rw [hb] at this
          simpa using this
        · intro hdc
          by_contra hne
          exact h3 (by simp [hdc, hne])

/-- The trial search of `Car.assign_new_destination` still carries the
old destination field, so a BFS towards any *other* destination cell can
never reach it: the goal cell is rejected by the foreign-destination
rule, and the search returns `none` (unless it starts on the goal). -/
lemma trial_bfs_to_foreign_destination_fails (g : CityGrid) (cars : List Car)
    (sd : Option Pos) (uid : Nat) (start dest : Pos)
    (hsd : start ≠ dest)
    (hdest : isDestinationCell g dest = true)
    (hne : sd ≠ some dest) :
    bfs_to_destination g cars sd uid start dest false = none := by
  rcases hres : bfs_to_destination g cars sd uid start dest false with _ | p
  · rfl
  · exfalso
    unfold bfs_to_destination at hres
    rw [if_neg hsd] at hres
    obtain ⟨r, hr1, hr2, hlast⟩ := bfsAux_sound g cars sd uid dest false start
      (cellOK g sd) (fun f t hv => valid_move_cellOK g cars sd uid f t false hv)
      max_iterations [(start, [start])] [start]
      (by
        intro e he
        have : e = (start, [start]) := by simpa using he
        subst this
        exact ⟨[], rfl, by simp, rfl⟩)
      p hres
    have hmem : dest ∈ p := by
      obtain ⟨hnil, heq⟩ := List.mem_getLast?_eq_getLast hlast
      rw [heq]
      exact List.getLast_mem hnil
    rw [hr1] at hmem
    rcases List.mem_cons.mp hmem with h | h
    · exact hsd h.symm
    · exact hne ((hr2 dest h).2 hdest)

/-- **C7.** On `gridIsolated` the car has failed 4 times already, its
destination `(0,2)` is unreachable, and the *other* destination `(1,0)`
is genuinely reachable (a one-step path exists once the destination
field is updated).  The fifth failure triggers reassignment, but the
trial search — run with the old destination field still in place —
treats every other destination cell as impassable (proved in general by
the second conjunct), so no reassignment can ever commit: the car is
retired instead, contradicting the claim that it is reassigned the
reachable destination. -/
theorem c7_reassignment_never_commits :
    (carFailing.path_calculation_failures = 4
      ∧ (1, 0) ∈ collectDestinations gridIsolated
      ∧ (calculate_path oracleId gridIsolated 1 [carFailing] carFailing).to_be_removed = true
      ∧ (calculate_path oracleId gridIsolated 1 [carFailing] carFailing).destination = some (0, 2)
      ∧ bfs_to_destination gridIsolated [carFailing] (some (1, 0)) 0 (0, 0) (1, 0) false
          = some [(0, 0), (1, 0)])
    ∧ ∀ (g : CityGrid) (cars : List Car) (car : Car) (dest : Pos),
        car.pos ≠ dest → isDestinationCell g dest = true →
        car.destination ≠ some dest →
        bfs_to_destination g cars car.destination car.unique_id car.pos dest false = none := by
  refine ⟨⟨rfl, by decide, by decide, by decide, by decide⟩, ?_⟩
  intro g cars car dest h1 h2 h3
  exact trial_bfs_to_foreign_destination_fails g cars car.destination car.unique_id
    car.pos dest h1 h2 h3

/-- **C7 witness.** Applied to `carFailing` and the reachable foreign
destination `(1,0)`: the trial search with the stale destination field
returns `none`. -/
theorem c7_reassignment_witness :
    carFailing.pos ≠ (1, 0)
    ∧ isDestinationCell gridIsolated (1, 0) = true
    ∧ carFailing.destination ≠ some (1, 0)
    ∧ bfs_to_destination gridIsolated [carFailing] carFailing.destination
        carFailing.unique_id carFailing.pos (1, 0) false = none :=
  ⟨by decide, by decide, by decide,
   (c7_reassignment_never_commits).2 gridIsolated [carFailing] carFailing (1, 0)
     (by decide) (by decide) (by decide)⟩

/-- The combined occupancy invariant for one car: admissible position
and admissible cached path. -/
def carOK (g : CityGrid) (car : Car) : Prop :=
  carPosOK g car ∧ carPathOK g car

instance (g : CityGrid) (car : Car) : Decidable (carOK g car) := by
  unfold carOK; infer_instance

/-- Every cell after the start of a successful BFS path is admissible
for the destination field the search was run with. -/
lemma bfs_path_cellOK (g : CityGrid) (cars : List Car) (sd : Option Pos)
    (uid : Nat) (start goal : Pos) (av : Bool) (p : List Pos)
    (h : bfs_to_destination g cars sd uid start goal av = some p) :
    ∀ c ∈ p.drop 1, cellOK g sd c := by
  unfold bfs_to_destination at h
  split at h
  · cases h
    simp
  · obtain ⟨r, hr1, hr2, _⟩ := bfsAux_sound g cars sd uid goal av start
      (cellOK g sd) (fun f t hv => valid_move_cellOK g cars sd uid f t av hv)
      max_iterations [(start, [start])] [start]
      (by
        intro e he
        have : e = (start, [start]) := by simpa using he
        subst this
        exact ⟨[], rfl, by simp, rfl⟩)
      p h
    rw [hr1]
    simpa using hr2

/-- `waitUpdate` touches only the wait counter and the recorded last
position. -/
lemma waitUpdate_ok (g : CityGrid) (car : Car) (h : carOK g car) :
    carOK g (waitUpdate car) := by
  exact h

/-- `stuckReroute` keeps the invariant: a successful avoid-cars reroute
installs a BFS path (admissible by `bfs_path_cellOK`), otherwise the
path is cleared. -/
lemma stuckReroute_ok (g : CityGrid) (cars : List Car) (car : Car)
    (h : carOK g car) : carOK g (stuckReroute g cars car) := by
  unfold stuckReroute
  rcases hd : car.destination with _ | d
  · exact h
  · dsimp only
    have hpos : cellOK g (some d) car.pos := hd ▸ h.1
    rcases hb : bfs_to_destination g cars (some d) car.unique_id car.pos d true
      with _ | p
    · refine ⟨hpos, ?_⟩
      intro c hc
      simp at hc
    · dsimp only
      by_cases hl : p.length > 1
      · rw [if_pos hl]
        refine ⟨hpos, ?_⟩
        intro c hc
        exact bfs_path_cellOK g cars (some d) car.unique_id car.pos d true p hb c
          (by simpa using hc)
      · rw [if_neg hl]
        refine ⟨hpos, ?_⟩
        intro c hc
        simp at hc

/-- `maybeReroute` keeps the invariant. -/
lemma maybeReroute_ok (g : CityGrid) (cars : List Car) (car : Car)
    (h : carOK g car) : carOK g (maybeReroute g cars car) := by
  unfold maybeReroute
  split
  · exact stuckReroute_ok g cars car h
  · exact h

/-- `updateFacing` keeps the invariant (it only changes the facing
direction). -/
lemma updateFacing_ok (g : CityGrid) (car : Car) (h : carOK g car) :
    carOK g (updateFacing g car) := by
  unfold updateFacing
  split
  · exact h
  · exact h

/-- Assigning a random destination to a destination-less car keeps the
invariant: by the invariant the car cannot be standing on a destination
cell, and the cached path is cleared. -/
lemma assignRandomDestination_ok (rnd : Oracle) (g : CityGrid) (tick : Nat)
    (car : Car) (h : carOK g car) (hd : car.destination = none) :
    carOK g (assignRandomDestination rnd g tick car) := by
  unfold assignRandomDestination
  dsimp only
  split
  · exact h
  · refine ⟨⟨h.1.1, ?_⟩, ?_⟩
    · intro hdc
      have := h.1.2 hdc
      rw [hd] at this
      exact absurd this (by simp)
    · intro c hc
      simp at hc

/-- `maybeAssignDest` keeps the invariant. -/
lemma maybeAssignDest_ok (rnd : Oracle) (g : CityGrid) (tick : Nat)
    (car : Car) (h : carOK g car) : carOK g (maybeAssignDest rnd g tick car) := by
  unfold maybeAssignDest
  split
  · next hd => exact assignRandomDestination_ok rnd g tick car h hd
  · exact h

/-- The reassignment loop keeps the invariant for a car that is not
standing on its own destination: a committed new destination clears the
path, and by the invariant the car's cell carries no destination at
all. -/
lemma tryAssignDest_ok (g : CityGrid) (cars : List Car) (car : Car)
    (h1 : carPosOK g car) (hne : car.destination ≠ some car.pos)
    (hpath : car.path_to_destination = none) :
    ∀ lst, carOK g (tryAssignDest g cars car lst) := by
  intro lst
  induction lst with
  | nil =>
    refine ⟨h1, ?_⟩
    intro c hc
    simp only [tryAssignDest] at hc
    rw [hpath] at hc
    simp at hc
  | cons dest rest ih =>
    unfold tryAssignDest
    split
    · split
      · refine ⟨⟨h1.1, ?_⟩, ?_⟩
        · intro hdc
          exact absurd (h1.2 hdc) hne
        · intro c hc
          simp at hc
      · exact ih
    · exact ih

/-- `calcPathFail` keeps the invariant for a car not standing on its
own destination. -/
lemma calcPathFail_ok (rnd : Oracle) (g : CityGrid) (tick : Nat)
    (cars : List Car) (car : Car) (h1 : carPosOK g car)
    (hne : car.destination ≠ some car.pos) :
    carOK g (calcPathFail rnd g tick cars car) := by
  unfold calcPathFail
  dsimp only
  split
  · unfold assign_new_destination
    dsimp only
    split
    · refine ⟨h1, ?_⟩
      intro c hc
      simp at hc
    · apply tryAssignDest_ok
      · exact h1
      · exact hne
      · rfl
  · refine ⟨h1, ?_⟩
    intro c hc
    simp at hc

/-- `calculate_path` keeps the invariant for a car not standing on its
own destination: a fresh path comes from BFS run with the car's current
destination field. -/
lemma calculate_path_ok (rnd : Oracle) (g : CityGrid) (tick : Nat)
    (cars : List Car) (car : Car) (h : carOK g car)
    (hne : car.destination ≠ some car.pos) :
    carOK g (calculate_path rnd g tick cars car) := by
  unfold calculate_path
  rcases hd : car.destination with _ | d
  · exact h
  · dsimp only
    have hpos : cellOK g (some d) car.pos := hd ▸ h.1
    rcases hp : car.path_to_destination with _ | l
    · dsimp only
      rcases hb : bfs_to_destination g cars (some d) car.unique_id car.pos d false
        with _ | p
      · exact calcPathFail_ok rnd g tick cars car h.1 hne
      · dsimp only
        split
        · refine ⟨hpos, ?_⟩
          intro c hc
          exact bfs_path_cellOK g cars (some d) car.unique_id car.pos d false p hb c
            (by simpa using hc)
        · exact calcPathFail_ok rnd g tick cars car h.1 hne
    · rcases l with _ | ⟨x, xs⟩
      · dsimp only
        rcases hb : bfs_to_destination g cars (some d) car.unique_id car.pos d false
          with _ | p
        · exact calcPathFail_ok rnd g tick cars car h.1 hne
        · dsimp only
          split
          · refine ⟨hpos, ?_⟩
            intro c hc
            exact bfs_path_cellOK g cars (some d) car.unique_id car.pos d false p hb c
              (by simpa using hc)
          · exact calcPathFail_ok rnd g tick cars car h.1 hne
      · exact h

/-- `followPath` keeps the invariant: the car either waits or moves to
the head of its cached path, which the path invariant certifies as
admissible. -/
lemma followPath_ok (g : CityGrid) (lights : List Traffic_Light)
    (cars : List Car) (car : Car) (h : carOK g car) :
    carOK g (followPath g lights cars car) := by
  unfold followPath
  split
  · next npos rpath heq =>
    have hnext : cellOK g car.destination npos := by
      have := h.2 npos
      rw [heq] at this
      exact this (by simp)
    have hrest : ∀ c ∈ rpath, cellOK g car.destination c := by
      intro c hc
      have := h.2 c
      rw [heq] at this
      exact this (by simp [hc])
    split
    · exact h
    · split
      · exact h
      · dsimp only
        have hmoved : carOK g (updateFacing g
            { car with pos := npos, path_to_destination := some rpath }) :=
          updateFacing_ok g _ ⟨hnext, hrest⟩
        split
        · exact hmoved
        · exact hmoved
  · exact h

/-- Car movement preserves the occupancy invariant: one tick of
`Car.move` keeps the car off obstacles and foreign destinations, and
keeps its cached path admissible. -/
lemma carMove_ok (rnd : Oracle) (g : CityGrid) (lights : List Traffic_Light)
    (tick : Nat) (cars : List Car) (car : Car) (h : carOK g car) :
    carOK g (carMove rnd g lights tick cars car) := by
  unfold carMove
  split
  · exact h
  · have h4 : carOK g (maybeAssignDest rnd g tick
        (updateFacing g (maybeReroute g cars (waitUpdate car)))) :=
      maybeAssignDest_ok rnd g tick _
        (updateFacing_ok g _ (maybeReroute_ok g cars _ (waitUpdate_ok g car h)))
    dsimp only
    split
    · exact h4
    · next harr =>
      have hne : (maybeAssignDest rnd g tick
          (updateFacing g (maybeReroute g cars (waitUpdate car)))).destination
          ≠ some (maybeAssignDest rnd g tick
            (updateFacing g (maybeReroute g cars (waitUpdate car)))).pos := by
        intro hcontra
        apply harr
        rw [hcontra]
        simp
      exact followPath_ok g lights cars _
        (calculate_path_ok rnd g tick cars _ h4 hne)

/-- The corner spawn loop keeps every car admissible provided the
corner cells it walks hold neither obstacles nor destinations (the loop
itself only checks for cars). -/
lemma spawn_foldl_ok (rnd : Oracle) (tick : Nat) (m : ModelState) :
    ∀ l : List Pos,
      (∀ p ∈ l, obstacleAt m.grid p = false ∧ isDestinationCell m.grid p = false) →
      ∀ acc : ModelState × Nat, (∀ x ∈ acc.1.cars, carOK m.grid x) →
      ∀ x ∈ (l.foldl (spawnAtCorner rnd tick m) acc).1.cars, carOK m.grid x := by
  intro l
  induction l with
  | nil =>
    intro _ acc hacc
    exact hacc
  | cons c rest ih =>
    intro hc acc hacc
    simp only [List.foldl_cons]
    refine ih (fun p hp => hc p (List.mem_cons_of_mem _ hp)) _ ?_
    unfold spawnAtCorner
    split
    · exact hacc
    · intro x hx
      dsimp only at hx
      rcases List.mem_append.mp hx with hmem | hmem
      · exact hacc x hmem
      · have hcc := hc c (List.mem_cons_self _ _)
        have hx' : x =
            { unique_id := acc.1.next_car_id
              pos := c
              destination := some (rnd.pick acc.1.next_car_id tick m.destination_positions)
              facing_direction := get_road_direction m.grid c
              path_to_destination := none
              path_calculation_failures := 0
              wait_time := 0
              last_position := none
              to_be_removed := false } := by
          simpa using hmem
        subst hx'
        refine ⟨⟨hcc.1, ?_⟩, ?_⟩
        · intro hdc
          rw [hcc.2] at hdc
          cases hdc
        · intro y hy
          simp at hy

/-- `spawn_cars_at_corners` keeps every car admissible when all corner
entry cells are free of obstacles and destinations. -/
lemma spawn_cars_ok (rnd : Oracle) (tick : Nat) (m : ModelState)
    (hc : ∀ p ∈ m.corner_positions,
      obstacleAt m.grid p = false ∧ isDestinationCell m.grid p = false)
    (hm : ∀ x ∈ m.cars, carOK m.grid x) :
    ∀ x ∈ (spawn_cars_at_corners rnd tick m).1.cars, carOK m.grid x := by
  unfold spawn_cars_at_corners
  split
  · exact hm
  · split
    · exact hm
    · exact spawn_foldl_ok rnd tick m m.corner_positions hc (m, 0) hm

/-- **C3 counterexample.** A reachable state violating the claimed
invariant: on the map `[">>", "DD"]` the corner entry cells `(0,0)` and
`(1,0)` themselves carry destinations, and `spawn_cars_at_corners`
checks corners only for cars, so after `set_spawn_interval 1` and one
external step a spawned car stands on the destination cell `(0,0)`
while its own assigned destination is `(1,0)`. -/
theorem c3_spawn_on_foreign_destination :
    ∃ x ∈ (updateModel oracleLast (set_spawn_interval (cityModelInit 5 7 gridDD []) 1)).cars,
      isDestinationCell gridDD x.pos = true ∧ x.destination ≠ some x.pos := by
  decide

/-- **C3 amended.** Car movement (one tick of `Car.move`) preserves the
occupancy invariant — a car on an admissible cell with an admissible
cached path (which is what BFS produces) stays on admissible cells —
and corner spawning preserves it *provided* every corner entry cell is
free of obstacles and destination markers; the spawn routine itself
checks corners only for existing cars, and the counterexample shows the
proviso is necessary. -/
theorem c3_occupancy_invariant (rnd : Oracle) (g : CityGrid)
    (lights : List Traffic_Light) (tick : Nat) (cars : List Car) (car : Car)
    (m : ModelState) (h : carOK g car)
    (hc : ∀ p ∈ m.corner_positions,
      obstacleAt m.grid p = false ∧ isDestinationCell m.grid p = false)
    (hm : ∀ x ∈ m.cars, carOK m.grid x) :
    carOK g (carMove rnd g lights tick cars car)
    ∧ ∀ x ∈ (spawn_cars_at_corners rnd tick m).1.cars, carOK m.grid x :=
  ⟨carMove_ok rnd g lights tick cars car h, spawn_cars_ok rnd tick m hc hm⟩

/-- **C3 witness.** Applied to the blocked car on `gridLane` and the
cornerless halted model: the hypotheses hold and both conclusions
evaluate. -/
theorem c3_occupancy_witness :
    carOK gridLane carFresh
    ∧ (∀ p ∈ modelHalted.corner_positions,
        obstacleAt modelHalted.grid p = false
        ∧ isDestinationCell modelHalted.grid p = false)
    ∧ (∀ x ∈ modelHalted.cars, carOK modelHalted.grid x)
    ∧ carOK gridLane (carMove oracleId gridLane [] 1 [carFresh, carBlocker] carFresh)
    ∧ ∀ x ∈ (spawn_cars_at_corners oracleId 1 modelHalted).1.cars,
        carOK modelHalted.grid x := by
  have happ := c3_occupancy_invariant oracleId gridLane [] 1 [carFresh, carBlocker]
    carFresh modelHalted (by decide) (by decide) (by decide)
  exact ⟨by decide, by decide, by decide, happ.1, happ.2⟩

end Traffic
